import Mathlib

/-!
Verification of the SpatialDataFrames tutorial repository.

The repository consists of two Jupyter notebooks:
* "Spatial Dataframes 1: Creating them using GeoPandas" (here `geopandasNotebook`);
* "Spatial Dataframes 1b: Creating them using the ArcGIS API for Python"
  (here `arcgisNotebook`).

Each code cell is translated into a small Python-statement AST (`Stmt`, `PyExpr`).
The AST carries the full literal content of every code cell: imports, assignments,
keyword arguments, string/int/float literals, IPython help requests (`expr?`),
and a dedicated `Except.error` case for a cell body that is not a syntactically
valid statement.  Statement forms that never occur in the notebooks (control flow,
try/except, function definitions) are present in the AST so that their absence is
a checkable property of the translation rather than an artifact of it.

The geospatial libraries themselves (pandas, geopandas, arcgis, fiona) are not
part of the repository; where a claim depends on their behaviour, that behaviour
is modelled from the specification and from the outputs recorded in the notebook
cells, and each such definition says so in its doc comment.
-/

/-- A Python expression, as occurring in the notebook code cells.
Call arguments are pairs of an optional keyword and the argument expression
(`none` for a positional argument). -/
inductive PyExpr where
  | name (s : String)
  | attr (obj : PyExpr) (field : String)
  | strLit (s : String)
  | intLit (n : Int)
  | floatLit (mantissa : Int) (exp10 : Nat)
  | boolLit (b : Bool)
  | tuple (a b : PyExpr)
  | subscript (obj : PyExpr) (index : PyExpr)
  | call (fn : PyExpr) (args : List (Option String × PyExpr))

/-- A Python statement, as occurring in the notebook code cells.  The final group
of constructors are the compound/control-flow statement forms of Python; none of
them occurs in either notebook, which is exactly what several claims assert. -/
inductive Stmt where
  | importModule (module : String) (asName : String)
  | importFrom (module : String) (names : List String)
  | assign (target : String) (value : PyExpr)
  | subscriptAssign (obj : PyExpr) (index : PyExpr) (value : PyExpr)
  | exprStmt (e : PyExpr)
  | helpRequest (e : PyExpr)
  | ifStmt
  | forStmt
  | whileStmt
  | withStmt
  | tryExcept
  | funcDef
  | classDef
  | raiseStmt

/-- One code cell of a notebook: its id and its body, either a parsed list of
statements or, for a body that is not a syntactically valid statement, the
verbatim offending text. -/
structure CodeCell where
  cellId : String
  code : Except String (List Stmt)

open PyExpr Stmt in
/-- The code cells of "Spatial Dataframes 1: Creating them using GeoPandas",
in notebook order, translated cell by cell. -/
def geopandasNotebook : List CodeCell := [
  ⟨"1db2746e", .ok [importModule "pandas" "pd", importModule "geopandas" "gpd"]⟩,
  ⟨"8ae16e96", .ok [assign "df" (call (attr (name "pd") "read_csv")
      [(none, strLit "../data/NC_Charging_Stations.csv")])]⟩,
  ⟨"5b16e827", .ok [exprStmt (call (attr (name "df") "head") [])]⟩,
  ⟨"064e516b", .ok [helpRequest (attr (name "gpd") "points_from_xy")]⟩,
  ⟨"ab1525c9", .ok [assign "geometries" (call (attr (name "gpd") "points_from_xy")
      [(some "x", subscript (name "df") (strLit "Longitude")),
       (some "y", subscript (name "df") (strLit "Latitude"))])]⟩,
  ⟨"719de7cd", .ok [helpRequest (attr (name "gpd") "GeoDataFrame")]⟩,
  ⟨"2202346a", .ok [assign "gdf_csv" (call (attr (name "gpd") "GeoDataFrame")
      [(some "data", name "df"), (some "geometry", name "geometries"),
       (some "crs", intLit 4326)]),
      exprStmt (call (name "type") [(none, name "gdf_csv")])]⟩,
  ⟨"0fb03212", .ok [exprStmt (call (attr (name "gdf_csv") "head") [])]⟩,
  ⟨"2ada92fa", .ok [exprStmt (call (attr (name "gdf_csv") "info") [])]⟩,
  ⟨"826722d1", .ok [exprStmt (attr (name "gdf_csv") "crs")]⟩,
  ⟨"bf4a382a", .ok [exprStmt (call (attr (attr (name "gdf_csv") "crs") "to_epsg") [])]⟩,
  ⟨"53939654", .ok [assign "gdf_utm" (call (attr (name "gdf_csv") "to_csv")
      [(none, intLit 32617)])]⟩,
  ⟨"66376b10", .ok [exprStmt (call (attr (name "gdf_csv") "plot")
      [(some "color", strLit "Green"), (some "marker", strLit "x"),
       (some "alpha", floatLit 3 1),
       (some "figsize", tuple (intLit 12) (intLit 7))])]⟩,
  ⟨"11a12284", .ok [helpRequest (attr (name "gpd") "read_file")]⟩,
  ⟨"a7c994ec", .ok [assign "gdf_shp" (call (attr (name "gpd") "read_file")
      [(none, strLit "../data/Major_Basins.shp")])]⟩,
  ⟨"6daff34d", .ok [assign "gdf_shp" (call (attr (name "gpd") "read_file")
      [(none, strLit "../data/Major_River_Basins.zip")])]⟩,
  ⟨"5e9afb41", .ok [exprStmt (call (attr (name "gdf_shp") "head") [])]⟩,
  ⟨"7ecf60e6", .ok [exprStmt (call (attr (attr (name "gdf_shp") "crs") "to_string") [])]⟩,
  ⟨"a3a00fbd", .ok [exprStmt (call (attr (name "gdf_shp") "plot")
      [(some "column", strLit "Basin"), (some "categorical", boolLit true),
       (some "figsize", tuple (intLit 12) (intLit 7)),
       (some "cmap", strLit "Pastel2")])]⟩,
  ⟨"1b074272", .ok [assign "gdf_geojson" (call (attr (name "gpd") "read_file")
      [(some "filename", strLit "../data/Major_River_Basins.geojson"),
       (some "driver", strLit "GeoJSON")])]⟩,
  ⟨"b47d23d2", .ok [exprStmt (call (attr (name "gdf_geojson") "plot") [])]⟩,
  ⟨"c1c5e436", .ok [importModule "fiona" "fiona"]⟩,
  ⟨"71e07c36", .ok [exprStmt (attr (name "fiona") "supported_drivers")]⟩,
  ⟨"e58bade8", .ok [subscriptAssign
      (attr (attr (attr (attr (attr (name "gpd") "io") "file") "fiona")
        "drvsupport") "supported_drivers")
      (strLit "KML") (strLit "rw")]⟩,
  ⟨"e23ea255", .ok [assign "gdf_kml" (call (attr (name "gpd") "read_file")
      [(none, strLit "../data/Major_River_Basins.kml"),
       (some "driver", strLit "KML")]),
      exprStmt (call (attr (name "gdf_kml") "plot") [(some "column", strLit "Name")])]⟩]

open PyExpr Stmt in
/-- The code cells of "Spatial Dataframes 1b: Creating them using the ArcGIS API
for Python", in notebook order, translated cell by cell.  Cell `9c72dc44`
consists of the bare text `GeoAccessor.`, which is not a syntactically valid
statement, and is recorded as such. -/
def arcgisNotebook : List CodeCell := [
  ⟨"a5cf79be", .ok [importModule "pandas" "pd", importFrom "arcgis" ["GeoAccessor"]]⟩,
  ⟨"7849d27c", .ok [assign "df" (call (attr (name "pd") "read_csv")
      [(none, strLit "../data/NC_Charging_Stations.csv")])]⟩,
  ⟨"0888b590", .ok [helpRequest (attr (name "GeoAccessor") "from_xy")]⟩,
  ⟨"e6c3bce6", .ok [assign "sdf" (call (attr (name "GeoAccessor") "from_xy")
      [(none, name "df"), (some "x_column", strLit "Longitude"),
       (some "y_column", strLit "Latitude"), (some "sr", intLit 4326)])]⟩,
  ⟨"2f406e70", .ok [exprStmt (call (attr (name "sdf") "head") [])]⟩,
  ⟨"eeb8e7a1", .ok [exprStmt (call (name "type") [(none, name "sdf")])]⟩,
  ⟨"fd72f698", .ok [exprStmt (call (name "type") [(none, attr (name "sdf") "spatial")])]⟩,
  ⟨"ff373488", .ok [exprStmt (attr (attr (name "sdf") "spatial") "centroid")]⟩,
  ⟨"a7a4f187", .ok [exprStmt (call (attr (attr (name "sdf") "spatial") "plot") [])]⟩,
  ⟨"162bdd83", .ok [helpRequest (attr (name "GeoAccessor") "from_featureclass")]⟩,
  ⟨"5b8a3abc", .ok [assign "sdf_shp" (call (attr (name "GeoAccessor") "from_featureclass")
      [(none, strLit "../data/Major_Basins.shp")])]⟩,
  ⟨"20aeb30a", .ok [exprStmt (call (attr (name "sdf_shp") "head") [])]⟩,
  ⟨"15364cb2", .ok [exprStmt (attr (attr (name "sdf_shp") "spatial") "sr")]⟩,
  ⟨"ac63ffdc", .ok [exprStmt (call (attr (attr (name "sdf_shp") "spatial") "plot") [])]⟩,
  ⟨"9c72dc44", .error "GeoAccessor."⟩,
  ⟨"0f3fd78a", .ok [importFrom "arcgis.features" ["FeatureLayer"]]⟩,
  ⟨"c1a867a9", .ok [assign "state_layer_url" (strLit
      "https://services.nconemap.gov/secure/rest/services/NC1Map_Regional_Boundaries/FeatureServer/0"),
      assign "county_layer_url" (strLit
      "https://services.nconemap.gov/secure/rest/services/NC1Map_Regional_Boundaries/FeatureServer/1")]⟩,
  ⟨"9bbf3f83", .ok [assign "state_layer" (call (name "FeatureLayer")
      [(none, name "state_layer_url")]),
      exprStmt (call (name "type") [(none, name "state_layer")])]⟩,
  ⟨"70889187", .ok [assign "sdf_state" (call (attr (name "GeoAccessor") "from_layer")
      [(none, name "state_layer")])]⟩,
  ⟨"74040082", .ok [exprStmt (call (attr (name "sdf_state") "info") [])]⟩,
  ⟨"a5cfee73", .ok [exprStmt (attr (attr (name "sdf_state") "spatial") "sr")]⟩,
  ⟨"83c84325", .ok [exprStmt (call (attr (attr (name "sdf_state") "spatial") "plot") [])]⟩,
  ⟨"1bed806d", .ok []⟩]

/-- All code cells of both notebooks, in order. -/
def allCells : List CodeCell := geopandasNotebook ++ arcgisNotebook

/-- The statements of a cell (`[]` for a cell whose body does not parse). -/
def cellStmts (c : CodeCell) : List Stmt :=
  match c.code with
  | .ok ss => ss
  | .error _ => []

/-- Whether a cell body is a syntactically valid (IPython) statement sequence. -/
def cellParses (c : CodeCell) : Bool :=
  match c.code with
  | .ok _ => true
  | .error _ => false

/-! ### Syntactic analysis of the cells -/

/-- Whether a statement is one of Python's control-flow / compound forms
(conditional, loop, `with`, `try`/`except`, function or class definition,
`raise`). -/
def stmtIsControlFlow : Stmt → Bool
  | .ifStmt | .forStmt | .whileStmt | .withStmt | .tryExcept
  | .funcDef | .classDef | .raiseStmt => true
  | _ => false

/-- Whether a statement is an error-handling or recovery construct:
a `try`/`except` block or a `raise`, or any loop (the shape a retry would
take). -/
def stmtIsErrorHandling : Stmt → Bool
  | .tryExcept | .raiseStmt | .forStmt | .whileStmt => true
  | _ => false

/-- A cell is straight-line when every one of its statements is a simple
(non-compound) statement. -/
def cellIsStraightLine (c : CodeCell) : Bool :=
  (cellStmts c).all fun s => !stmtIsControlFlow s

/-- The text of Python code ends with an attribute-access dot: a final `.`
immediately preceded by an identifier character or a closing bracket (so the
dot is not part of a numeric literal such as `1.`).  By Python's grammar such
a dot must be followed by a name, so text of this shape is never a valid
statement and raises a `SyntaxError` when executed. -/
def danglingAttrDot (s : String) : Bool :=
  match s.toList.reverse with
  | '.' :: c :: _ => c.isAlpha || c == '_' || c == ')' || c == ']'
  | _ => false

/-- The top-level call of a statement, when it is a plain assignment of a call
or a call expression statement. -/
def stmtCall : Stmt → Option (PyExpr × List (Option String × PyExpr))
  | .assign _ (.call fn args) => some (fn, args)
  | .exprStmt (.call fn args) => some (fn, args)
  | _ => none

/-- Whether an expression is (an attribute access ending in) one of the local
file-reading functions used by the notebooks: `pd.read_csv`, `gpd.read_file`,
`GeoAccessor.from_featureclass`. -/
def isLocalReadFn : PyExpr → Bool
  | .attr _ f => f == "read_csv" || f == "read_file" || f == "from_featureclass"
  | _ => false

/-- The path argument of a file-reading call: the first positional string
literal, or the `filename` keyword argument. -/
def callPathArgs (args : List (Option String × PyExpr)) : List String :=
  args.filterMap fun a =>
    match a with
    | (none, .strLit s) => some s
    | (some "filename", .strLit s) => some s
    | _ => none

/-- The local file paths read by one statement. -/
def stmtFilesRead (s : Stmt) : List String :=
  match stmtCall s with
  | some (fn, args) => if isLocalReadFn fn then callPathArgs args else []
  | none => []

/-- The local file paths read by one cell. -/
def cellFilesRead (c : CodeCell) : List String :=
  ((cellStmts c).map stmtFilesRead).flatten

/-- The local file paths read by a list of cells, in execution order. -/
def filesRead (cells : List CodeCell) : List String :=
  (cells.map cellFilesRead).flatten

mutual

/-- Every string literal occurring anywhere in an expression. -/
def exprStrLits : PyExpr → List String
  | .name _ => []
  | .attr obj _ => exprStrLits obj
  | .strLit s => [s]
  | .intLit _ => []
  | .floatLit _ _ => []
  | .boolLit _ => []
  | .tuple a b => exprStrLits a ++ exprStrLits b
  | .subscript obj index => exprStrLits obj ++ exprStrLits index
  | .call fn args => exprStrLits fn ++ argStrLits args

/-- Every string literal occurring in a list of call arguments. -/
def argStrLits : List (Option String × PyExpr) → List String
  | [] => []
  | (_, e) :: rest => exprStrLits e ++ argStrLits rest

end

/-- Every string literal occurring anywhere in a statement. -/
def stmtStrLits : Stmt → List String
  | .importModule _ _ => []
  | .importFrom _ _ => []
  | .assign _ v => exprStrLits v
  | .subscriptAssign obj index v => exprStrLits obj ++ exprStrLits index ++ exprStrLits v
  | .exprStmt e => exprStrLits e
  | .helpRequest e => exprStrLits e
  | _ => []

/-- Whether a string starts with `http` (written on the character list so that
it evaluates inside the kernel). -/
def startsWithHttp (s : String) : Bool :=
  match s.toList with
  | 'h' :: 't' :: 't' :: 'p' :: _ => true
  | _ => false

/-- Every remote URL written anywhere in the code of a list of cells: the
string literals that start with `http`. -/
def urlLiterals (cells : List CodeCell) : List String :=
  ((cells.map fun c => ((cellStmts c).map stmtStrLits).flatten).flatten).filter
    startsWithHttp

/-- Resolve a bare name against an environment of earlier top-level
assignments (the notebooks only ever bind a name once before use). -/
def resolve1 (env : List (String × PyExpr)) : PyExpr → PyExpr
  | .name n =>
      match env.find? (fun p => p.1 == n) with
      | some p => p.2
      | none => .name n
  | e => e

/-- The URL wrapped by a (resolved) `FeatureLayer(url)` constructor call. -/
def layerUrl : PyExpr → List String
  | .call (.name "FeatureLayer") ((none, .strLit u) :: _) => [u]
  | .call (.name "FeatureLayer") ((none, e) :: _) =>
      match e with
      | .strLit u => [u]
      | _ => []
  | _ => []

/-- The remote URLs fetched by a statement, under an environment of earlier
bindings.  Modelled from the spec: `GeoAccessor.from_layer(layer)` queries the
feature-service endpoint the layer was constructed from; merely constructing
a `FeatureLayer` or binding a URL string fetches nothing. -/
def stmtFetches (env : List (String × PyExpr)) (s : Stmt) : List String :=
  match stmtCall s with
  | some (.attr _ f, args) =>
      if f == "from_layer" then
        (args.map fun a => layerUrl (resolve1 env a.2)).flatten
      else []
  | _ => []

/-- Extend the environment with a top-level assignment, resolving names in
call arguments so that later lookups see the constructed value. -/
def envStep (env : List (String × PyExpr)) : Stmt → List (String × PyExpr)
  | .assign x v =>
      let v' := match v with
        | .call fn args => .call fn (args.map fun a => (a.1, resolve1 env a.2))
        | other => other
      (x, v') :: env
  | _ => env

/-- The remote URLs fetched by a statement list run in order. -/
def fetchesAux : List (String × PyExpr) → List Stmt → List String
  | _, [] => []
  | env, s :: rest => stmtFetches env s ++ fetchesAux (envStep env s) rest

/-- The remote URLs fetched over a whole notebook run. -/
def urlsFetched (cells : List CodeCell) : List String :=
  fetchesAux [] ((cells.map cellStmts).flatten)

/-- Whether a statement assigns into a module-level or library-owned data
structure: a subscript assignment whose target object is reached through an
attribute path (so it lives in a module, not in a variable the cell bound
itself). -/
def stmtMutatesSharedState : Stmt → Bool
  | .subscriptAssign (.attr _ _) _ _ => true
  | _ => false

/-- Whether any statement of a cell mutates module-level or library-owned
state. -/
def cellMutatesSharedState (c : CodeCell) : Bool :=
  (cellStmts c).any stmtMutatesSharedState

/-! ### File-creation effects

Modelled from the spec: the notebook cells call only readers, constructors,
inspectors and plotters, none of which creates a file; the single candidate
writer is `DataFrame.to_csv`, which creates the named file when given a string
path, but when given an integer passes it to Python's `open()` as an
already-open file descriptor, so no filesystem path is created. -/

/-- The filesystem paths created by one statement. -/
def stmtFilesCreated (s : Stmt) : List String :=
  match stmtCall s with
  | some (.attr _ f, args) =>
      if f == "to_csv" || f == "to_file" then
        args.filterMap fun a =>
          match a with
          | (none, .strLit path) => some path
          | (some "path_or_buf", .strLit path) => some path
          | _ => none
      else []
  | _ => []

/-- The filesystem paths created by one cell. -/
def cellFilesCreated (c : CodeCell) : List String :=
  ((cellStmts c).map stmtFilesCreated).flatten

/-- The filesystem paths created over a list of cells. -/
def filesCreated (cells : List CodeCell) : List String :=
  (cells.map cellFilesCreated).flatten

/-! ### The Fiona driver registry

Modelled from the spec: GeoPandas reads files through Fiona, whose module-level
`supported_drivers` dictionary lists the enabled format drivers; the KML driver
is absent from that dictionary by default, and `gpd.read_file(..., driver=d)`
raises a driver error when `d` is not in the dictionary.  The registry is
library-owned state shared by the whole kernel session. -/

/-- Fiona's default `supported_drivers` registry (representative entries; the
fact the claims rely on is that `KML` is absent by default, as the notebook
itself records). -/
def defaultSupportedDrivers : List (String × String) :=
  [("ESRI Shapefile", "raw"), ("GeoJSON", "rw"), ("GPKG", "raw"),
   ("GML", "rw"), ("OpenFileGDB", "r"), ("TopoJSON", "r"), ("DXF", "rw"),
   ("CSV", "raw"), ("GPX", "rw"), ("MapInfo File", "raw"), ("DGN", "raw"),
   ("PCIDSK", "r"), ("FlatGeobuf", "rw"), ("SQLite", "raw")]

/-- Whether a driver name is registered. -/
def hasDriver (drivers : List (String × String)) (k : String) : Bool :=
  drivers.any fun p => p.1 == k

/-- The effect of one statement on the driver registry: a subscript assignment
into a `supported_drivers` dictionary adds (or overrides) that driver entry;
every other statement leaves the registry unchanged. -/
def driversStep (drivers : List (String × String)) : Stmt → List (String × String)
  | .subscriptAssign (.attr _ "supported_drivers") (.strLit k) (.strLit v) =>
      (k, v) :: drivers
  | _ => drivers

/-- The driver registry after running a list of statements in order. -/
def driversAfter (drivers : List (String × String)) (ss : List Stmt) :
    List (String × String) :=
  ss.foldl driversStep drivers

/-- The explicit `driver=` keyword of a read call, if any. -/
def stmtReadDriver (s : Stmt) : Option String :=
  match stmtCall s with
  | some (.attr _ "read_file", args) =>
      args.findSome? fun a =>
        match a with
        | (some "driver", .strLit d) => some d
        | _ => none
  | _ => none

/-- Whether a statement raises a driver error under a given registry:
it is a `read_file` call whose explicit `driver=` is not registered. -/
def stmtRaisesDriverError (drivers : List (String × String)) (s : Stmt) : Bool :=
  match stmtReadDriver s with
  | some d => !hasDriver drivers d
  | none => false

/-- The statements of the cells of a notebook that precede the cell with the
given id, in execution order. -/
def stmtsBefore (cells : List CodeCell) (stop : String) : List Stmt :=
  ((cells.takeWhile fun c => c.cellId != stop).map cellStmts).flatten

/-- The registry states after each successive statement of a run (the state
after the whole prefix ending at that statement). -/
def driverStates (drivers : List (String × String)) : List Stmt →
    List (List (String × String))
  | [] => []
  | s :: rest =>
      let d' := driversStep drivers s
      d' :: driverStates d' rest

/-! ### The library data model

The geospatial libraries are not part of the repository; the definitions below
model the behaviour the notebooks rely on, from the specification and from the
outputs recorded in the notebook cells. -/

/-- A scalar value in a tabular cell: numeric (rationals stand in for the
floating-point coordinate values) or text. -/
inductive CellVal where
  | num (q : Rat)
  | txt (s : String)

/-- A plain pandas dataframe: named columns and rows of keyed entries. -/
structure PdDataFrame where
  columns : List String
  rows : List (List (String × CellVal))

/-- The numeric entry of a row at a column, if present and numeric. -/
def rowNum (r : List (String × CellVal)) (c : String) : Option Rat :=
  match r.find? (fun p => p.1 == c) with
  | some (_, .num q) => some q
  | _ => none

/-- The values of a column, when the column exists and every row holds a
numeric entry for it (the "valid coordinate column" condition). -/
def numericCol (df : PdDataFrame) (c : String) : Option (List Rat) :=
  if df.columns.contains c then df.rows.mapM (fun r => rowNum r c) else none

/-- A geometry object: a point, polyline or polygon. -/
inductive Geometry where
  | point (x y : Rat)
  | polyline (paths : List (List (Rat × Rat)))
  | polygon (rings : List (List (Rat × Rat)))

/-- Whether a geometry is a point. -/
def Geometry.isPoint : Geometry → Bool
  | .point _ _ => true
  | _ => false

/-- Modelled from the spec: `geopandas.points_from_xy` builds a GeoSeries of
point geometries from parallel x- and y-coordinate columns. -/
def points_from_xy (x y : List Rat) : List Geometry :=
  List.zipWith Geometry.point x y

/-- A GeoPandas geodataframe: tabular data extended with a geometry column and
an optional coordinate-reference-system tag. -/
structure GeoDataFrame where
  data : PdDataFrame
  geometry : List Geometry
  crs : Option Nat

/-- Modelled from the spec: `gpd.read_file` reads a feature-class file into a
geodataframe whose geometry column holds the file's features and whose crs is
the one stored in the file. -/
structure FeatureClassFile where
  path : String
  storedWkid : Nat
  latestWkid : Nat
  attrs : PdDataFrame
  geoms : List Geometry

/-- Modelled from the spec (see `FeatureClassFile`). -/
def gpd.read_file (f : FeatureClassFile) : GeoDataFrame :=
  ⟨f.attrs, f.geoms, some f.storedWkid⟩

/-- Modelled from the spec: the `gpd.GeoDataFrame(data=..., geometry=...,
crs=...)` constructor attaches the geometry column and tags the frame with the
given WKID. -/
def gpd.GeoDataFrame (data : PdDataFrame) (geometry : List Geometry)
    (crs : Option Nat) : GeoDataFrame :=
  ⟨data, geometry, crs⟩

/-- Modelled from the spec: `GeoDataFrame.to_crs(epsg)` reprojects the geometry
column into the coordinate reference system with the given EPSG code and tags
the result with it (the coordinate transform itself lives in the projection
engine outside this repository; the tag is what the notebooks observe). -/
def GeoDataFrame.to_crs (g : GeoDataFrame) (epsg : Nat) : GeoDataFrame :=
  { g with crs := some epsg }

/-- The outcome of `DataFrame.to_csv`. -/
inductive CsvOutcome where
  | wrote (path : String)
  | wroteFd (fd : Int)
  | osError (fd : Int)
  deriving DecidableEq

/-- Modelled from the spec: `DataFrame.to_csv` serializes the frame to CSV
text.  Given a string path it creates that file and returns `None`; given an
integer, the integer is handed to Python's `open()`, which treats it as an
already-open file descriptor, so the call raises `OSError` when the descriptor
is not among the process's open descriptors and otherwise writes to it without
creating any path.  In no case does it return a dataframe or touch the
geometry column. -/
def DataFrame.to_csv (openFds : List Int) : Int ⊕ String → CsvOutcome
  | .inr path => .wrote path
  | .inl fd => if openFds.contains fd then .wroteFd fd else .osError fd

/-- The file descriptors open in a fresh kernel process: the standard streams
(stdin, stdout, stderr). -/
def freshKernelFds : List Int := [0, 1, 2]

/-- The Python classes of the objects the notebooks inspect with `type(...)`,
with the fully qualified names the notebook outputs record. -/
inductive PyClass where
  | pandasDataFrame
  | geoAccessorCls
  | featureLayerCls

/-- The fully qualified name of a Python class. -/
def PyClass.qualName : PyClass → String
  | .pandasDataFrame => "pandas.core.frame.DataFrame"
  | .geoAccessorCls => "arcgis.features.geo._accessor.GeoAccessor"
  | .featureLayerCls => "arcgis.features.layer.FeatureLayer"

/-- An Esri geometry as stored in a SHAPE column entry: the geometry together
with the spatial-reference WKID recorded on it. -/
structure EsriGeom where
  wkid : Nat
  geom : Geometry

/-- The ArcGIS "spatially enabled dataframe": a plain pandas dataframe carrying
an extra SHAPE column of Esri geometries and a spatial reference. -/
structure SpatialDataFrame where
  base : PdDataFrame
  shape : List EsriGeom
  srWkid : Nat

/-- Modelled from the spec: the object `GeoAccessor.from_xy` returns is not a
dataframe subtype; its Python class is the plain pandas `DataFrame` class, as
the recorded output of `type(sdf)` shows. -/
def SpatialDataFrame.pyClass (_ : SpatialDataFrame) : PyClass :=
  .pandasDataFrame

/-- The `.spatial` accessor object of a spatially enabled dataframe. -/
structure GeoAccessorObj where
  sdf : SpatialDataFrame

/-- Appending `.spatial` to a spatially enabled dataframe reaches its spatial
capabilities. -/
def SpatialDataFrame.spatial (s : SpatialDataFrame) : GeoAccessorObj :=
  ⟨s⟩

/-- Modelled from the spec: the class of the `.spatial` accessor, as the
recorded output of `type(sdf.spatial)` shows. -/
def GeoAccessorObj.pyClass (_ : GeoAccessorObj) : PyClass :=
  .geoAccessorCls

/-- The spatial reference reported by `sdf.spatial.sr`. -/
def GeoAccessorObj.sr (a : GeoAccessorObj) : Nat :=
  a.sdf.srWkid

/-- Modelled from the spec: `GeoAccessor.from_xy(df, x_column, y_column, sr)`
converts a pandas dataframe with coordinate columns into a spatially enabled
dataframe: it appends a SHAPE column of point geometries built from the named
columns, each tagged with the given spatial reference `sr`; a missing or
non-numeric coordinate column raises a `KeyError`. -/
def GeoAccessor.from_xy (df : PdDataFrame) (x_column y_column : String)
    (sr : Nat) : Except String SpatialDataFrame :=
  match numericCol df x_column, numericCol df y_column with
  | some xs, some ys =>
      .ok { base := { df with columns := df.columns ++ ["SHAPE"] },
            shape := List.zipWith (fun x y => ⟨sr, Geometry.point x y⟩) xs ys,
            srWkid := sr }
  | _, _ => .error "KeyError"

/-- Modelled from the spec: `GeoAccessor.from_featureclass` reads a feature
class into a spatially enabled dataframe whose SHAPE column holds the file's
features and whose spatial reference is the one stored in the file. -/
def GeoAccessor.from_featureclass (f : FeatureClassFile) : SpatialDataFrame :=
  { base := { f.attrs with columns := f.attrs.columns ++ ["SHAPE"] },
    shape := f.geoms.map fun g => ⟨f.storedWkid, g⟩,
    srWkid := f.storedWkid }

/-- A remote feature-service layer endpoint, with the attribute table, the
features, and the spatial reference the service stores. -/
structure FeatureService where
  url : String
  storedWkid : Nat
  attrs : PdDataFrame
  geoms : List Geometry

/-- The `arcgis.features.FeatureLayer` object wrapping a service endpoint. -/
structure FeatureLayerObj where
  service : FeatureService

/-- Modelled from the spec: `FeatureLayer(url)` wraps the feature-service
endpoint hosted at the url. -/
def FeatureLayer (svc : FeatureService) : FeatureLayerObj :=
  ⟨svc⟩

/-- The class of a `FeatureLayer`, as the recorded output of
`type(state_layer)` shows. -/
def FeatureLayerObj.pyClass (_ : FeatureLayerObj) : PyClass :=
  .featureLayerCls

/-- Modelled from the spec: `GeoAccessor.from_layer` queries the layer's
endpoint and builds a spatially enabled dataframe holding the service's
features in the service's spatial reference. -/
def GeoAccessor.from_layer (l : FeatureLayerObj) : SpatialDataFrame :=
  { base := { l.service.attrs with
      columns := l.service.attrs.columns ++ ["SHAPE"] },
    shape := l.service.geoms.map fun g => ⟨l.service.storedWkid, g⟩,
    srWkid := l.service.storedWkid }

/-! ### The concrete data sources named by the notebooks -/

/-- Modelled from the spec: `Major_Basins.shp` stores spatial reference wkid
102100 (latestWkid 3857), as the recorded output of `sdf_shp.spatial.sr`
shows; the first recorded features are the Broad and Catawba basin polygons. -/
def majorBasinsShp : FeatureClassFile :=
  { path := "../data/Major_Basins.shp"
    storedWkid := 102100
    latestWkid := 3857
    attrs := { columns := ["FID", "FID_1", "Basin", "Sq_Miles", "Acres",
                 "Name", "PlanLink", "SHAPE_Leng", "SHAPE_Area"]
               rows := [[("FID", .num 0), ("FID_1", .num 1),
                         ("Basin", .txt "BRD"), ("Name", .txt "Broad")],
                        [("FID", .num 1), ("FID_1", .num 2),
                         ("Basin", .txt "CAT"), ("Name", .txt "Catawba")]] }
    geoms := [Geometry.polygon [[((-9213866 : Rat), (4173023 : Rat))]],
              Geometry.polygon [[((-9094141 : Rat), (4320798 : Rat))]]] }

/-- Modelled from the spec: the NC OneMap state-boundaries layer at
`.../NC1Map_Regional_Boundaries/FeatureServer/0` serves its features in wkid
32119, as the recorded output of `sdf_state.spatial.sr` shows. -/
def stateBoundariesService : FeatureService :=
  { url := "https://services.nconemap.gov/secure/rest/services/NC1Map_Regional_Boundaries/FeatureServer/0"
    storedWkid := 32119
    attrs := { columns := ["Shape__Area", "Shape__Length", "day_adm",
                 "month_adm", "objectid", "onemap_sdeadmin_usa_states_area",
                 "order_adm", "perimeter", "state", "state_fips",
                 "statesp020", "year_adm"]
               rows := [[("objectid", .num 1), ("state", .txt "North Carolina")]] }
    geoms := [Geometry.polygon [[(0, 0)]]] }

/-- Test data for the witnesses: the first two EV charging-station records the
notebook's `df.head()` output shows (coordinates rounded to whole degrees so
that the terms evaluate by `decide`). -/
def sampleDf : PdDataFrame :=
  { columns := ["ID", "Station Name", "City", "Latitude", "Longitude"]
    rows := [[("ID", .num 39016),
              ("Station Name", .txt "City of Raleigh - Municipal Building"),
              ("City", .txt "Raleigh"),
              ("Latitude", .num 36), ("Longitude", .num (-79))],
             [("ID", .num 39017),
              ("Station Name", .txt "City of Raleigh - Downtown"),
              ("City", .txt "Raleigh"),
              ("Latitude", .num 36), ("Longitude", .num (-79))]] }

/-- The Longitude column of the test data. -/
def sampleLons : List Rat :=
  [-79, -79]

/-- The Latitude column of the test data. -/
def sampleLats : List Rat :=
  [36, 36]

/-- A geodataframe built from the test data the way the notebook builds
`gdf_csv`. -/
def sampleGdf : GeoDataFrame :=
  gpd.GeoDataFrame sampleDf (points_from_xy sampleLons sampleLats) (some 4326)

open PyExpr in
/-- The first statement of cell `e23ea255` of the GeoPandas notebook: the KML
read. -/
def kmlReadStmt : Stmt :=
  .assign "gdf_kml" (.call (.attr (.name "gpd") "read_file")
    [(none, .strLit "../data/Major_River_Basins.kml"),
     (some "driver", .strLit "KML")])

/-- The statements of the cells from the cell with the given id (inclusive) to
the end of the notebook. -/
def stmtsFrom (cells : List CodeCell) (start : String) : List Stmt :=
  ((cells.dropWhile fun c => c.cellId != start).map cellStmts).flatten

/-- The four local input files the specification lists. -/
def claimedInputPaths : List String :=
  ["../data/NC_Charging_Stations.csv", "../data/Major_Basins.shp",
   "../data/Major_River_Basins.geojson", "../data/Major_River_Basins.kml"]

/-! ### Shared lemmas -/

/-- Every entry of a SHAPE column zipped out of coordinate columns is a point
geometry tagged with the construction's spatial reference. -/
theorem zipWith_esri_points_all (sr : Nat) (xs ys : List Rat) :
    (List.zipWith (fun x y => EsriGeom.mk sr (Geometry.point x y)) xs ys).all
      (fun g => g.wkid == sr && g.geom.isPoint) = true := by
  induction xs generalizing ys with
  | nil => rfl
  | cons x xs ih =>
    cases ys with
    | nil => rfl
    | cons y ys =>
      rw [List.zipWith_cons_cons, List.all_cons, ih ys, Bool.and_true]
      simp [Geometry.isPoint]

/-- Every geometry produced by `points_from_xy` is a point. -/
theorem points_from_xy_all_points (xs ys : List Rat) :
    (points_from_xy xs ys).all Geometry.isPoint = true := by
  unfold points_from_xy
  induction xs generalizing ys with
  | nil => rfl
  | cons x xs ih =>
    cases ys with
    | nil => rfl
    | cons y ys =>
      rw [List.zipWith_cons_cons, List.all_cons, ih ys, Bool.and_true]
      rfl

/-- A column list extended with `SHAPE` contains `SHAPE`. -/
theorem contains_shape (cols : List String) :
    (cols ++ ["SHAPE"]).contains "SHAPE" = true := by
  induction cols with
  | nil => rfl
  | cons c cs ih => simp_all [List.contains_cons]

/-- `from_xy` on a frame with valid coordinate columns returns the spatially
enabled dataframe built from them. -/
theorem from_xy_eq_ok (df : PdDataFrame) (xc yc : String) (sr : Nat)
    (xs ys : List Rat) (hx : numericCol df xc = some xs)
    (hy : numericCol df yc = some ys) :
    GeoAccessor.from_xy df xc yc sr = .ok
      { base := { df with columns := df.columns ++ ["SHAPE"] },
        shape := List.zipWith (fun x y => ⟨sr, Geometry.point x y⟩) xs ys,
        srWkid := sr } := by
  unfold GeoAccessor.from_xy
  rw [hx, hy]




/-! ### The claims -/

/-- C1: for every dataframe with valid Longitude/Latitude coordinate columns,
building a spatial dataframe with spatial reference 4326 — via
`GeoAccessor.from_xy(df, x_column="Longitude", y_column="Latitude", sr=4326)`
or via `gpd.points_from_xy` followed by `gpd.GeoDataFrame(..., crs=4326)` —
yields a frame whose geometry column holds point geometries tagged with
coordinate reference system 4326. -/
theorem C1_csv_yields_points_tagged_4326
    (df : PdDataFrame) (xs ys : List Rat)
    (hx : numericCol df "Longitude" = some xs)
    (hy : numericCol df "Latitude" = some ys) :
    (∃ s : SpatialDataFrame,
        GeoAccessor.from_xy df "Longitude" "Latitude" 4326 = .ok s ∧
        s.srWkid = 4326 ∧
        s.base.columns.contains "SHAPE" = true ∧
        s.shape.all (fun g => g.wkid == 4326 && g.geom.isPoint) = true) ∧
    (gpd.GeoDataFrame df (points_from_xy xs ys) (some 4326)).crs = some 4326 ∧
    (gpd.GeoDataFrame df (points_from_xy xs ys) (some 4326)).geometry.all
      Geometry.isPoint = true := by
  refine ⟨⟨_, from_xy_eq_ok df "Longitude" "Latitude" 4326 xs ys hx hy,
    rfl, contains_shape df.columns, zipWith_esri_points_all 4326 xs ys⟩,
    rfl, points_from_xy_all_points xs ys⟩

/-- Witness for C1: the property instantiated at the concrete test dataframe. -/
theorem C1_csv_yields_points_tagged_4326_witness :
    numericCol sampleDf "Longitude" = some sampleLons ∧
    numericCol sampleDf "Latitude" = some sampleLats ∧
    ((∃ s : SpatialDataFrame,
        GeoAccessor.from_xy sampleDf "Longitude" "Latitude" 4326 = .ok s ∧
        s.srWkid = 4326 ∧
        s.base.columns.contains "SHAPE" = true ∧
        s.shape.all (fun g => g.wkid == 4326 && g.geom.isPoint) = true) ∧
    (gpd.GeoDataFrame sampleDf (points_from_xy sampleLons sampleLats)
      (some 4326)).crs = some 4326 ∧
    (gpd.GeoDataFrame sampleDf (points_from_xy sampleLons sampleLats)
      (some 4326)).geometry.all Geometry.isPoint = true) :=
  ⟨by decide, by decide,
   C1_csv_yields_points_tagged_4326 sampleDf sampleLons sampleLats
     (by decide) (by decide)⟩

/-- C2 (code bug): the cell labeled "Project to UTM Zone 17N" does not invoke a
reprojection.  Its single statement assigns `gdf_utm` the result of
`gdf_csv.to_csv(32617)` — CSV serialization, not `to_crs` — which on a fresh
kernel's file descriptors raises `OSError` and in no case yields a
geodataframe reprojected to EPSG:32617, whereas the intended call
`to_crs(32617)` yields exactly that. -/
theorem C2_project_cell_calls_to_csv :
    (geopandasNotebook.find? (fun c => c.cellId == "53939654")).map
      CodeCell.code =
      some (.ok [.assign "gdf_utm" (.call (.attr (.name "gdf_csv") "to_csv")
        [(none, .intLit 32617)])]) ∧
    ("to_csv" == "to_crs") = false ∧
    DataFrame.to_csv freshKernelFds (.inl 32617) = .osError 32617 ∧
    (GeoDataFrame.to_crs sampleGdf 32617).crs = some 32617 ∧
    sampleGdf.crs = some 4326 :=
  ⟨rfl, by decide, by decide, rfl, rfl⟩

/-- C3 counterexample: not every code cell parses — the claim as stated fails.
Cell `9c72dc44` of the ArcGIS notebook is the bare text `GeoAccessor.`, whose
final character is a dangling attribute-access dot, which Python's grammar
never accepts as a statement; the cell raises a `SyntaxError` instead of
completing. -/
theorem C3_counterexample :
    arcgisNotebook.all cellParses = false ∧
    (arcgisNotebook.find? (fun c => c.cellId == "9c72dc44")).map
      CodeCell.code = some (.error "GeoAccessor.") ∧
    danglingAttrDot "GeoAccessor." = true :=
  ⟨by decide, rfl, by decide⟩

/-- C3 (amended): every code cell of both notebooks is straight-line — no
control-flow or compound statement — and every code cell except the
bare-expression cell `GeoAccessor.` (id `9c72dc44`) parses; that one cell does
not parse and raises a `SyntaxError` when executed. -/
theorem C3_straight_line_cells :
    allCells.all cellIsStraightLine = true ∧
    allCells.all (fun c => cellParses c || (c.cellId == "9c72dc44")) = true ∧
    (arcgisNotebook.find? (fun c => c.cellId == "9c72dc44")).map cellParses =
      some false :=
  ⟨by decide, by decide, by decide⟩

/-- C4 counterexample: the claimed input set is wrong on both sides — the
GeoPandas notebook also reads the local file `Major_River_Basins.zip`, which is
not among the four files the claim lists, and the code defines two remote
feature-service URLs, not one. -/
theorem C4_counterexample :
    (filesRead allCells).contains "../data/Major_River_Basins.zip" = true ∧
    claimedInputPaths.contains "../data/Major_River_Basins.zip" = false ∧
    ((urlLiterals allCells).length == 1) = false :=
  ⟨by decide, by decide, by decide⟩

/-- C4 (amended): the local files read by the notebooks are exactly the four
claimed files plus `Major_River_Basins.zip` (the CSV and the shapefile are
each read by both notebooks), and the code defines exactly two remote
feature-service URLs — the state-boundaries layer `FeatureServer/0` and the
county-boundaries layer `FeatureServer/1` — of which exactly one, the state
layer, is fetched. -/
theorem C4_external_inputs :
    filesRead allCells =
      ["../data/NC_Charging_Stations.csv", "../data/Major_Basins.shp",
       "../data/Major_River_Basins.zip", "../data/Major_River_Basins.geojson",
       "../data/Major_River_Basins.kml", "../data/NC_Charging_Stations.csv",
       "../data/Major_Basins.shp"] ∧
    (filesRead allCells).all (fun p =>
      (claimedInputPaths ++ ["../data/Major_River_Basins.zip"]).contains p) =
      true ∧
    urlLiterals allCells =
      ["https://services.nconemap.gov/secure/rest/services/NC1Map_Regional_Boundaries/FeatureServer/0",
       "https://services.nconemap.gov/secure/rest/services/NC1Map_Regional_Boundaries/FeatureServer/1"] ∧
    urlsFetched allCells =
      ["https://services.nconemap.gov/secure/rest/services/NC1Map_Regional_Boundaries/FeatureServer/0"] :=
  ⟨by decide, by decide, by decide, by decide⟩

/-- C5: executing the notebooks persists no state — no cell creates any file;
in particular the cell `gdf_utm = gdf_csv.to_csv(32617)` creates no file,
since its integer argument is treated as an (unopened) file descriptor, on
which the call raises `OSError` rather than creating a path. -/
theorem C5_no_persisted_state :
    filesCreated allCells = [] ∧
    (geopandasNotebook.find? (fun c => c.cellId == "53939654")).map
      cellFilesCreated = some [] ∧
    DataFrame.to_csv freshKernelFds (.inl 32617) = .osError 32617 :=
  ⟨by decide, by decide, by decide⟩

/-- C6: no code cell of either notebook contains error handling, retry, or
recovery logic — no `try`/`except`, no `raise`, no loop a retry could live in,
and indeed no compound statement at all, so every library call is invoked
unguarded and any exception propagates out of the cell unchanged. -/
theorem C6_no_error_handling :
    allCells.all (fun c => (cellStmts c).all
      (fun s => !stmtIsErrorHandling s)) = true ∧
    allCells.all cellIsStraightLine = true :=
  ⟨by decide, by decide⟩

/-- C7 counterexample: the claim that no cell assigns into module-level or
library-owned state fails — cell `e58bade8` of the GeoPandas notebook assigns
into the library-owned Fiona driver registry
`gpd.io.file.fiona.drvsupport.supported_drivers`. -/
theorem C7_counterexample :
    allCells.all (fun c => !cellMutatesSharedState c) = false ∧
    (geopandasNotebook.find? (fun c => c.cellId == "e58bade8")).map
      CodeCell.code =
      some (.ok [.subscriptAssign
        (.attr (.attr (.attr (.attr (.attr (.name "gpd") "io") "file")
          "fiona") "drvsupport") "supported_drivers")
        (.strLit "KML") (.strLit "rw")]) :=
  ⟨by decide, rfl⟩

/-- C7 (amended): exactly one cell mutates library-shared state — cell
`e58bade8`, which inserts the entry KML ↦ rw into the Fiona
`supported_drivers` registry — and every other cell only binds local variables
and calls libraries; running the notebook up to the final cell leaves the
registry equal to the default registry with exactly that entry added. -/
theorem C7_single_registry_mutation :
    (allCells.filter cellMutatesSharedState).map CodeCell.cellId =
      ["e58bade8"] ∧
    driversAfter defaultSupportedDrivers
      (stmtsBefore geopandasNotebook "e23ea255") =
      ("KML", "rw") :: defaultSupportedDrivers :=
  ⟨by decide, by decide⟩

/-- C8: every spatial dataframe the notebooks construct carries both a
geometry (SHAPE) column and a coordinate-reference-system tag, and the tag
equals the identifier supplied at construction or stored in the source:
4326 for the CSV-derived frame, wkid 102100 for the shapefile-derived frame,
and wkid 32119 for the feature-layer-derived frame. -/
theorem C8_crs_tags
    (df : PdDataFrame) (xs ys : List Rat)
    (hx : numericCol df "Longitude" = some xs)
    (hy : numericCol df "Latitude" = some ys)
    (f : FeatureClassFile) (svc : FeatureService) :
    (∃ s : SpatialDataFrame,
        GeoAccessor.from_xy df "Longitude" "Latitude" 4326 = .ok s ∧
        s.spatial.sr = 4326 ∧ s.base.columns.contains "SHAPE" = true) ∧
    (gpd.GeoDataFrame df (points_from_xy xs ys) (some 4326)).crs = some 4326 ∧
    ((GeoAccessor.from_featureclass f).spatial.sr = f.storedWkid ∧
      (GeoAccessor.from_featureclass f).base.columns.contains "SHAPE" = true) ∧
    ((GeoAccessor.from_layer (FeatureLayer svc)).spatial.sr = svc.storedWkid ∧
      (GeoAccessor.from_layer (FeatureLayer svc)).base.columns.contains
        "SHAPE" = true) ∧
    (gpd.read_file f).crs = some f.storedWkid ∧
    majorBasinsShp.storedWkid = 102100 ∧ majorBasinsShp.latestWkid = 3857 ∧
    stateBoundariesService.storedWkid = 32119 := by
  refine ⟨⟨_, from_xy_eq_ok df "Longitude" "Latitude" 4326 xs ys hx hy,
      rfl, contains_shape df.columns⟩, rfl,
    ⟨rfl, contains_shape f.attrs.columns⟩,
    ⟨rfl, contains_shape svc.attrs.columns⟩, rfl, rfl, rfl, rfl⟩

/-- Witness for C8: the property instantiated at the concrete test dataframe,
the modelled `Major_Basins.shp` file and the modelled state-boundaries
service. -/
theorem C8_crs_tags_witness :
    numericCol sampleDf "Longitude" = some sampleLons ∧
    numericCol sampleDf "Latitude" = some sampleLats ∧
    ((∃ s : SpatialDataFrame,
        GeoAccessor.from_xy sampleDf "Longitude" "Latitude" 4326 = .ok s ∧
        s.spatial.sr = 4326 ∧ s.base.columns.contains "SHAPE" = true) ∧
    (gpd.GeoDataFrame sampleDf (points_from_xy sampleLons sampleLats)
      (some 4326)).crs = some 4326 ∧
    ((GeoAccessor.from_featureclass majorBasinsShp).spatial.sr =
        majorBasinsShp.storedWkid ∧
      (GeoAccessor.from_featureclass majorBasinsShp).base.columns.contains
        "SHAPE" = true) ∧
    ((GeoAccessor.from_layer (FeatureLayer stateBoundariesService)).spatial.sr =
        stateBoundariesService.storedWkid ∧
      (GeoAccessor.from_layer
        (FeatureLayer stateBoundariesService)).base.columns.contains
        "SHAPE" = true) ∧
    (gpd.read_file majorBasinsShp).crs = some majorBasinsShp.storedWkid ∧
    majorBasinsShp.storedWkid = 102100 ∧ majorBasinsShp.latestWkid = 3857 ∧
    stateBoundariesService.storedWkid = 32119) :=
  ⟨by decide, by decide,
   C8_crs_tags sampleDf sampleLons sampleLats (by decide) (by decide)
     majorBasinsShp stateBoundariesService⟩

/-- C9: for every dataframe with valid coordinate columns, the object
`GeoAccessor.from_xy` returns is itself of Python type
`pandas.core.frame.DataFrame` — not a distinct dataframe subtype — and its
spatial capabilities are reached only through the `.spatial` accessor, whose
type is `arcgis.features.geo._accessor.GeoAccessor`. -/
theorem C9_from_xy_plain_dataframe
    (df : PdDataFrame) (xc yc : String) (sr : Nat) (xs ys : List Rat)
    (hx : numericCol df xc = some xs) (hy : numericCol df yc = some ys) :
    ∃ s : SpatialDataFrame,
      GeoAccessor.from_xy df xc yc sr = .ok s ∧
      s.pyClass = PyClass.pandasDataFrame ∧
      s.pyClass.qualName = "pandas.core.frame.DataFrame" ∧
      s.spatial.pyClass = PyClass.geoAccessorCls ∧
      s.spatial.pyClass.qualName = "arcgis.features.geo._accessor.GeoAccessor" :=
  ⟨_, from_xy_eq_ok df xc yc sr xs ys hx hy, rfl, rfl, rfl, rfl⟩

/-- Witness for C9: the property instantiated at the concrete test
dataframe. -/
theorem C9_from_xy_plain_dataframe_witness :
    numericCol sampleDf "Longitude" = some sampleLons ∧
    numericCol sampleDf "Latitude" = some sampleLats ∧
    (∃ s : SpatialDataFrame,
      GeoAccessor.from_xy sampleDf "Longitude" "Latitude" 4326 = .ok s ∧
      s.pyClass = PyClass.pandasDataFrame ∧
      s.pyClass.qualName = "pandas.core.frame.DataFrame" ∧
      s.spatial.pyClass = PyClass.geoAccessorCls ∧
      s.spatial.pyClass.qualName =
        "arcgis.features.geo._accessor.GeoAccessor") :=
  ⟨by decide, by decide,
   C9_from_xy_plain_dataframe sampleDf "Longitude" "Latitude" 4326
     sampleLons sampleLats (by decide) (by decide)⟩

/-- C10: the KML read succeeds only because of cell-order-dependent global
state.  The first statement of cell `e23ea255` is
`gpd.read_file(../data/Major_River_Basins.kml, driver=KML)`; in a fresh kernel
the KML driver is absent from the Fiona registry and the read raises — and it
still raises after running every earlier cell except the registry-mutating
cell `e58bade8` — whereas once `e58bade8` has run the read succeeds, and the
inserted registry entry persists through every remaining statement of the
kernel session. -/
theorem C10_kml_read_requires_registry_mutation :
    (geopandasNotebook.find? (fun c => c.cellId == "e23ea255")).map
      (fun c => (cellStmts c).head?) = some (some kmlReadStmt) ∧
    hasDriver defaultSupportedDrivers "KML" = false ∧
    stmtRaisesDriverError defaultSupportedDrivers kmlReadStmt = true ∧
    stmtRaisesDriverError
      (driversAfter defaultSupportedDrivers
        (stmtsBefore (geopandasNotebook.filter fun c => c.cellId != "e58bade8")
          "e23ea255"))
      kmlReadStmt = true ∧
    stmtRaisesDriverError
      (driversAfter defaultSupportedDrivers
        (stmtsBefore geopandasNotebook "e23ea255"))
      kmlReadStmt = false ∧
    (driverStates
        (driversAfter defaultSupportedDrivers
          (stmtsBefore geopandasNotebook "e23ea255"))
        (stmtsFrom geopandasNotebook "e23ea255")).all
      (fun d => hasDriver d "KML") = true ∧
    hasDriver
      (driversAfter defaultSupportedDrivers
        ((geopandasNotebook.map cellStmts).flatten)) "KML" = true :=
  ⟨rfl, by decide, by decide, by decide, by decide, by decide, by decide⟩
